import Mathlib

/-
Verification of the interactive command surface of minitox (minitox.c):
the asynchronous line editor (arepl_readline), the combined contact-index
encoding (GEN_INDEX / INDEX_TO_NUM / INDEX_TO_TYPE), the pending-request
queue (friend_request_cb / group_invite_cb / _command_accept), the
per-session chat history (genmsg / command_history) and the command
dispatch loop (poptok / repl_iterate).

Machine integers of the C source (uint32_t) are modelled as Nat with an
explicit reduction modulo 2^32 at every operation that can wrap.
-/

namespace Minitox

/-! ### Constants (minitox.c, Consts & Macros section) -/

/-- LINE_MAX_SIZE: capacity of the line editor buffer. -/
def LINE_MAX_SIZE : Nat := 512

/-- DEFAULT_CHAT_HIST_COUNT: default number of chat history items shown. -/
def DEFAULT_CHAT_HIST_COUNT : Nat := 20

/-- COMMAND_ARGS_REST: arity offset marking a variable-arity command. -/
def COMMAND_ARGS_REST : Nat := 10

/-- 2^32, the modulus of uint32_t arithmetic. -/
def UINT32_MOD : Nat := 2 ^ 32

/-- enum TALK_TYPE: TALK_TYPE_FRIEND = 0. -/
def TALK_TYPE_FRIEND : Nat := 0

/-- enum TALK_TYPE: TALK_TYPE_GROUP = 1. -/
def TALK_TYPE_GROUP : Nat := 1

/-- enum TALK_TYPE: TALK_TYPE_COUNT = 2. -/
def TALK_TYPE_COUNT : Nat := 2

/-- enum TALK_TYPE: TALK_TYPE_NULL = UINT32_MAX, the "no active session"
sentinel stored in TalkingTo. -/
def TALK_TYPE_NULL : Nat := UINT32_MOD - 1

/-! ### Combined index macros (minitox.c lines 189-191) -/

/-- GEN_INDEX(num,type) = num * TALK_TYPE_COUNT + type, in uint32 arithmetic. -/
def GEN_INDEX (num ty : Nat) : Nat := (num * TALK_TYPE_COUNT + ty) % UINT32_MOD

/-- INDEX_TO_TYPE(idx) = idx % TALK_TYPE_COUNT. -/
def INDEX_TO_TYPE (idx : Nat) : Nat := idx % TALK_TYPE_COUNT

/-- INDEX_TO_NUM(idx) = idx / TALK_TYPE_COUNT. -/
def INDEX_TO_NUM (idx : Nat) : Nat := idx / TALK_TYPE_COUNT

/-- C4: the CombinedIndex encoding round-trips: for every num < 2^31 and
kind in \x7b0,1\x7d, decoding GEN_INDEX(num,kind) via (index / 2, index % 2)
recovers exactly (num, kind). -/
theorem gen_index_roundtrip (num ty : Nat) (hnum : num < 2 ^ 31)
    (hty : ty = TALK_TYPE_FRIEND ∨ ty = TALK_TYPE_GROUP) :
    INDEX_TO_NUM (GEN_INDEX num ty) = num ∧ INDEX_TO_TYPE (GEN_INDEX num ty) = ty := by
  unfold INDEX_TO_NUM INDEX_TO_TYPE GEN_INDEX TALK_TYPE_COUNT UINT32_MOD
  unfold TALK_TYPE_FRIEND TALK_TYPE_GROUP at hty
  constructor <;> rcases hty with h | h <;> subst h <;> omega

/-- Witness for C4 at num = 2026, kind = TALK_TYPE_GROUP. -/
theorem gen_index_roundtrip_witness :
    2026 < 2 ^ 31 ∧
      (INDEX_TO_NUM (GEN_INDEX 2026 TALK_TYPE_GROUP) = 2026 ∧
        INDEX_TO_TYPE (GEN_INDEX 2026 TALK_TYPE_GROUP) = TALK_TYPE_GROUP) :=
  ⟨by decide, gen_index_roundtrip 2026 TALK_TYPE_GROUP (by decide) (Or.inr rfl)⟩

/-! ### Async REPL line editor (minitox.c lines 361-501)

struct AsyncREPL holds a heap buffer `line` of `sz` = LINE_MAX_SIZE bytes,
split into a head region [0, nbuf) and a tail region [sz - nstack, sz).
The buffer is modelled as a total function Nat → Char (the C heap cell at
each offset); `escaped` models the static escape-sequence counter of
arepl_readline. -/

structure AsyncREPL where
  line : Nat → Char
  sz : Nat
  nbuf : Nat
  nstack : Nat
  escaped : Nat

/-- A store to the buffer: line[i] = c. -/
def bufWrite (f : Nat → Char) (i : Nat) (c : Char) : Nat → Char :=
  fun j => if j = i then c else f j

/-- The head region head[0..nbuf): bytes left of the cursor. -/
def headBytes (a : AsyncREPL) : List Char :=
  (List.range a.nbuf).map a.line

/-- The tail region tail[sz-nstack..sz): bytes right of the cursor. -/
def tailBytes (a : AsyncREPL) : List Char :=
  (List.range a.nstack).map (fun k => a.line (a.sz - a.nstack + k))

/-- _AREPL_CURSOR_LEFT(): line[sz - (++nstack)] = line[--nbuf]. -/
def cursorLeft (a : AsyncREPL) : AsyncREPL :=
  { a with
    line := bufWrite a.line (a.sz - (a.nstack + 1)) (a.line (a.nbuf - 1)),
    nstack := a.nstack + 1,
    nbuf := a.nbuf - 1 }

/-- _AREPL_CURSOR_RIGHT(): line[nbuf++] = line[sz - (nstack--)]. -/
def cursorRight (a : AsyncREPL) : AsyncREPL :=
  { a with
    line := bufWrite a.line a.nbuf (a.line (a.sz - a.nstack)),
    nbuf := a.nbuf + 1,
    nstack := a.nstack - 1 }

/-- C-a: while (nbuf > 0) _AREPL_CURSOR_LEFT(). -/
def moveHome (a : AsyncREPL) : AsyncREPL :=
  if a.nbuf > 0 then moveHome (cursorLeft a) else a
termination_by a.nbuf
decreasing_by simpa [cursorLeft] using Nat.sub_lt (by omega) Nat.one_pos

/-- C-e: while (nstack > 0) _AREPL_CURSOR_RIGHT(). -/
def moveEnd (a : AsyncREPL) : AsyncREPL :=
  if a.nstack > 0 then moveEnd (cursorRight a) else a
termination_by a.nstack
decreasing_by simpa [cursorRight] using Nat.sub_lt (by omega) Nat.one_pos

/-- One `while (nbuf > 0 && p line[nbuf-1]) nbuf--` loop of the C-w case. -/
def popWhile (p : Char → Bool) (a : AsyncREPL) : AsyncREPL :=
  if a.nbuf > 0 ∧ p (a.line (a.nbuf - 1)) then popWhile p { a with nbuf := a.nbuf - 1 } else a
termination_by a.nbuf
decreasing_by simpa using Nat.sub_lt (by omega) Nat.one_pos

/-- The `if (escaped>0) escaped++` step at the top of arepl_readline
(uint32 increment). -/
def escStep (a : AsyncREPL) : AsyncREPL :=
  { a with escaped := if a.escaped > 0 then (a.escaped + 1) % UINT32_MOD else a.escaped }

/-- arepl_readline(arepl, c, line, sz): processes one input byte.
Returns the new editor state and, when a commit byte '\n' arrives, the
completed line written into the caller's buffer of size outSz (snprintf
truncates it to outSz - 1 characters). -/
def arepl_readline (a : AsyncREPL) (c : Char) (outSz : Nat) : AsyncREPL × Option (List Char) :=
  if c = '\x1b' then ({ a with escaped := 1 }, none)
  else
    let a := escStep a
    if c = '\n' then
      let out := (headBytes a ++ tailBytes a ++ ['\n']).take (outSz - 1)
      ({ a with nbuf := 0, nstack := 0 }, some out)
    else if c = '\x08' ∨ c = '\x7f' then
      (if a.nbuf > 0 then { a with nbuf := a.nbuf - 1 } else a, none)
    else if c = '\x15' then ({ a with nbuf := 0 }, none)
    else if c = '\x0b' then ({ a with nstack := 0 }, none)
    else if c = '\x01' then (moveHome a, none)
    else if c = '\x05' then (moveEnd a, none)
    else if c = '\x02' then (if a.nbuf > 0 then cursorLeft a else a, none)
    else if c = '\x06' then (if a.nstack > 0 then cursorRight a else a, none)
    else if c = '\x17' then
      (popWhile (fun x => x ≠ ' ') (popWhile (fun x => x = ' ') a), none)
    else if (c = 'D' ∨ c = 'C') ∧ a.escaped = 3 ∧ a.nbuf ≥ 1 ∧ a.line (a.nbuf - 1) = '[' then
      let a := { a with nbuf := a.nbuf - 1 }
      if c = 'D' then (if a.nbuf > 0 then cursorLeft a else a, none)
      else (if a.nstack > 0 then cursorRight a else a, none)
    else
      ({ a with line := bufWrite a.line a.nbuf c, nbuf := a.nbuf + 1 }, none)

@[simp] lemma escStep_line (a : AsyncREPL) : (escStep a).line = a.line := rfl

@[simp] lemma escStep_sz (a : AsyncREPL) : (escStep a).sz = a.sz := rfl

@[simp] lemma escStep_nbuf (a : AsyncREPL) : (escStep a).nbuf = a.nbuf := rfl

@[simp] lemma escStep_nstack (a : AsyncREPL) : (escStep a).nstack = a.nstack := rfl

@[simp] lemma cursorLeft_sz (a : AsyncREPL) : (cursorLeft a).sz = a.sz := rfl

@[simp] lemma cursorLeft_nbuf (a : AsyncREPL) : (cursorLeft a).nbuf = a.nbuf - 1 := rfl

@[simp] lemma cursorLeft_nstack (a : AsyncREPL) : (cursorLeft a).nstack = a.nstack + 1 := rfl

lemma cursorLeft_line (a : AsyncREPL) :
    (cursorLeft a).line = bufWrite a.line (a.sz - (a.nstack + 1)) (a.line (a.nbuf - 1)) := rfl

@[simp] lemma cursorRight_sz (a : AsyncREPL) : (cursorRight a).sz = a.sz := rfl

@[simp] lemma cursorRight_nbuf (a : AsyncREPL) : (cursorRight a).nbuf = a.nbuf + 1 := rfl

@[simp] lemma cursorRight_nstack (a : AsyncREPL) : (cursorRight a).nstack = a.nstack - 1 := rfl

lemma cursorRight_line (a : AsyncREPL) :
    (cursorRight a).line = bufWrite a.line a.nbuf (a.line (a.sz - a.nstack)) := rfl

/-- Feeding Ctrl-B takes the C-b branch of arepl_readline. -/
lemma readline_ctrlB (a : AsyncREPL) (outSz : Nat) :
    arepl_readline a '\x02' outSz =
      (if a.nbuf > 0 then cursorLeft (escStep a) else escStep a, none) := by
  simp [arepl_readline]

/-- Feeding Ctrl-F takes the C-f branch of arepl_readline. -/
lemma readline_ctrlF (a : AsyncREPL) (outSz : Nat) :
    arepl_readline a '\x06' outSz =
      (if a.nstack > 0 then cursorRight (escStep a) else escStep a, none) := by
  simp [arepl_readline]

/-- A full editor state (nbuf + nstack = LINE_MAX_SIZE = 512): 511 head
bytes 'a', cursor moved one to the left so the tail holds one byte 'a'. -/
def fullState : AsyncREPL :=
  { line := fun _ => 'a', sz := LINE_MAX_SIZE, nbuf := 511, nstack := 1, escaped := 0 }

/-- C1: the default case of arepl_readline has no capacity guard: feeding a
printable byte to a full buffer (nbuf + nstack = CAP) is NOT a no-op — the
byte is written at line[nbuf], which is the first byte of the tail region,
and nbuf is incremented, so nbuf + nstack = CAP + 1 and the tail byte is
overwritten. -/
theorem arepl_insert_full_overflow :
    fullState.nbuf + fullState.nstack = LINE_MAX_SIZE ∧
      tailBytes fullState = ['a'] ∧
      (arepl_readline fullState 'x' LINE_MAX_SIZE).1.nbuf +
          (arepl_readline fullState 'x' LINE_MAX_SIZE).1.nstack = LINE_MAX_SIZE + 1 ∧
      tailBytes (arepl_readline fullState 'x' LINE_MAX_SIZE).1 = ['x'] := by
  decide

/-- An editor state with the cursor at the line start (nbuf = 0) and one
byte to its right (nstack = 1). -/
def cursorAtStart : AsyncREPL :=
  { line := fun _ => 'a', sz := LINE_MAX_SIZE, nbuf := 0, nstack := 1, escaped := 0 }

/-- C7 counterexample: feeding Ctrl-B then Ctrl-F is not always a no-op.
With the cursor at the line start and one byte to its right, Ctrl-B does
nothing (nbuf = 0) but the following Ctrl-F moves the cursor right, so
(nbuf, nstack) changes from (0, 1) to (1, 0). -/
theorem move_left_right_not_noop :
    cursorAtStart.nbuf = 0 ∧ cursorAtStart.nstack = 1 ∧
      ((arepl_readline (arepl_readline cursorAtStart '\x02' LINE_MAX_SIZE).1 '\x06'
            LINE_MAX_SIZE).1.nbuf = 1 ∧
        (arepl_readline (arepl_readline cursorAtStart '\x02' LINE_MAX_SIZE).1 '\x06'
            LINE_MAX_SIZE).1.nstack = 0) := by
  decide

/-- Feeding two bytes in sequence to the line editor (state part only). -/
def feed2 (a : AsyncREPL) (c1 c2 : Char) : AsyncREPL :=
  (arepl_readline (arepl_readline a c1 LINE_MAX_SIZE).1 c2 LINE_MAX_SIZE).1

/-- C7 (amended): in any editor state with nbuf + nstack ≤ CAP, Ctrl-B then
Ctrl-F is a no-op provided the first move is effective (nbuf > 0), and
Ctrl-F then Ctrl-B is a no-op provided nstack > 0: the head region, the
tail region and the pair (nbuf, nstack) are all unchanged. -/
theorem move_left_right_adjacent_noop (a : AsyncREPL) (hinv : a.nbuf + a.nstack ≤ a.sz) :
    (0 < a.nbuf →
      headBytes (feed2 a '\x02' '\x06') = headBytes a ∧
        tailBytes (feed2 a '\x02' '\x06') = tailBytes a ∧
        (feed2 a '\x02' '\x06').nbuf = a.nbuf ∧ (feed2 a '\x02' '\x06').nstack = a.nstack) ∧
    (0 < a.nstack →
      headBytes (feed2 a '\x06' '\x02') = headBytes a ∧
        tailBytes (feed2 a '\x06' '\x02') = tailBytes a ∧
        (feed2 a '\x06' '\x02').nbuf = a.nbuf ∧ (feed2 a '\x06' '\x02').nstack = a.nstack) := by
  constructor
  · intro hb
    unfold feed2
    rw [readline_ctrlB, if_pos (by simpa using hb)]
    rw [readline_ctrlF]
    rw [if_pos (by simp)]
    refine ⟨?_, ?_, by simp; omega, by simp⟩
    · unfold headBytes
      rw [show (cursorRight (escStep (cursorLeft (escStep a)))).nbuf = a.nbuf by
        simp; omega]
      refine List.map_congr_left fun j hj => ?_
      rw [List.mem_range] at hj
      simp only [cursorRight_line, cursorLeft_line, escStep_line, escStep_sz, escStep_nbuf,
        escStep_nstack, cursorLeft_sz, cursorLeft_nbuf, cursorLeft_nstack, bufWrite]
      split_ifs <;> first | rfl | (congr 1; omega)
    · unfold tailBytes
      rw [show (cursorRight (escStep (cursorLeft (escStep a)))).nstack = a.nstack by simp]
      rw [show (cursorRight (escStep (cursorLeft (escStep a)))).sz = a.sz by simp]
      refine List.map_congr_left fun k hk => ?_
      rw [List.mem_range] at hk
      simp only [cursorRight_line, cursorLeft_line, escStep_line, escStep_sz, escStep_nbuf,
        escStep_nstack, cursorLeft_sz, cursorLeft_nbuf, cursorLeft_nstack, bufWrite]
      split_ifs <;> first | rfl | (congr 1; omega)
  · intro hs
    unfold feed2
    rw [readline_ctrlF, if_pos (by simpa using hs)]
    rw [readline_ctrlB]
    rw [if_pos (by simp)]
    refine ⟨?_, ?_, by simp, by simp; omega⟩
    · unfold headBytes
      rw [show (cursorLeft (escStep (cursorRight (escStep a)))).nbuf = a.nbuf by simp]
      refine List.map_congr_left fun j hj => ?_
      rw [List.mem_range] at hj
      simp only [cursorLeft_line, cursorRight_line, escStep_line, escStep_sz, escStep_nbuf,
        escStep_nstack, cursorRight_sz, cursorRight_nbuf, cursorRight_nstack, bufWrite]
      split_ifs <;> first | rfl | (congr 1; omega)
    · unfold tailBytes
      rw [show (cursorLeft (escStep (cursorRight (escStep a)))).nstack = a.nstack by
        simp; omega]
      rw [show (cursorLeft (escStep (cursorRight (escStep a)))).sz = a.sz by simp]
      refine List.map_congr_left fun k hk => ?_
      rw [List.mem_range] at hk
      simp only [cursorLeft_line, cursorRight_line, escStep_line, escStep_sz, escStep_nbuf,
        escStep_nstack, cursorRight_sz, cursorRight_nbuf, cursorRight_nstack, bufWrite]
      split_ifs <;> first | rfl | (congr 1; omega)

/-- A small editor state used to witness move_left_right_adjacent_noop:
head "a", tail "b", capacity 512. -/
def midState : AsyncREPL :=
  { line := fun j => if j = 0 then 'a' else if j = 511 then 'b' else 'c',
    sz := LINE_MAX_SIZE, nbuf := 1, nstack := 1, escaped := 0 }

/-- Witness for C7 (amended) at midState. -/
theorem move_left_right_adjacent_noop_witness :
    midState.nbuf + midState.nstack ≤ midState.sz ∧
      ((0 < midState.nbuf →
        headBytes (feed2 midState '\x02' '\x06') = headBytes midState ∧
          tailBytes (feed2 midState '\x02' '\x06') = tailBytes midState ∧
          (feed2 midState '\x02' '\x06').nbuf = midState.nbuf ∧
          (feed2 midState '\x02' '\x06').nstack = midState.nstack) ∧
      (0 < midState.nstack →
        headBytes (feed2 midState '\x06' '\x02') = headBytes midState ∧
          tailBytes (feed2 midState '\x06' '\x02') = tailBytes midState ∧
          (feed2 midState '\x06' '\x02').nbuf = midState.nbuf ∧
          (feed2 midState '\x06' '\x02').nstack = midState.nstack)) :=
  ⟨by decide, move_left_right_adjacent_noop midState (by decide)⟩

/-! ### Chat history (minitox.c lines 123-127, 201-221, 996-1016)

struct ChatHist is a doubly-linked node; the heap is modelled as a list of
nodes indexed by allocation order, links as optional indices into it. -/

structure ChatHist where
  msg : String
  next : Option Nat
  prev : Option Nat
deriving Repr, DecidableEq, Inhabited

/-- A session's chat history: the allocated nodes and the head pointer
(*pp, the most recently prepended node). -/
structure HistState where
  nodes : List ChatHist
  head : Option Nat
deriving Repr, DecidableEq, Inhabited

/-- The history of a fresh session (NULL head, nothing allocated). -/
def emptyHist : HistState := ⟨[], none⟩

/-- The store (*pp)->prev = p. -/
def setPrev (nodes : List ChatHist) (i : Nat) (p : Option Nat) : List ChatHist :=
  match nodes[i]? with
  | none => nodes
  | some nd => nodes.set i { nd with prev := p }

/-- genmsg(pp, ...): allocate node h; h.prev = NULL; h.next = *pp;
if (*pp) (*pp)->prev = h; *pp = h. The new node's heap index is the
allocation count so far. -/
def genmsg (s : HistState) (m : String) : HistState :=
  let idx := s.nodes.length
  let nodes :=
    match s.head with
    | none => s.nodes
    | some h => setPrev s.nodes h (some idx)
  ⟨nodes ++ [⟨m, s.head, none⟩], some idx⟩

/-- The loop `while (hist && hist->next) hist = hist->next` of
command_history: follow forward links to the terminal (oldest) node.
fuel bounds the number of steps. -/
def walkNext (s : HistState) : Option Nat → Nat → Option Nat
  | cur, 0 => cur
  | none, _ + 1 => none
  | some i, fuel + 1 =>
    match s.nodes[i]? with
    | none => some i
    | some nd =>
      match nd.next with
      | none => some i
      | some j => walkNext s (some j) fuel

/-- The loop `for (i=0; i<n && hist; i++, hist=hist->prev) print msg` of
command_history: collect up to n messages following backward links. -/
def collectPrev (s : HistState) : Option Nat → Nat → Nat → List String
  | _, 0, _ => []
  | _, _ + 1, 0 => []
  | none, _ + 1, _ + 1 => []
  | some i, n + 1, fuel + 1 =>
    match s.nodes[i]? with
    | none => []
    | some nd => nd.msg :: collectPrev s nd.prev n fuel

/-- The read phase of command_history: walk to the oldest entry, then print
up to n entries walking toward newer ones. -/
def historyRead (s : HistState) (n : Nat) : List String :=
  collectPrev s (walkNext s s.head (s.nodes.length + 1)) n (s.nodes.length + 1)

lemma walkNext_some (s : HistState) (i fuel : Nat) :
    walkNext s (some i) (fuel + 1) =
      match s.nodes[i]? with
      | none => some i
      | some nd =>
        match nd.next with
        | none => some i
        | some j => walkNext s (some j) fuel := by
  rw [walkNext]

lemma collectPrev_some (s : HistState) (i n fuel : Nat) :
    collectPrev s (some i) (n + 1) (fuel + 1) =
      match s.nodes[i]? with
      | none => []
      | some nd => nd.msg :: collectPrev s nd.prev n fuel := by
  rw [collectPrev]

/-- A history built by prepending the entries of ms in order (ms.head is
pushed first and is the oldest entry). -/
def buildHist (ms : List String) : HistState :=
  ms.foldl genmsg emptyHist

/-- The node layout produced by repeated genmsg: node i holds the i-th
oldest message, its forward link points to the older node i-1 and its
backward link to the newer node i+1. -/
def expectedNode (ms : List String) (i : Nat) : ChatHist :=
  { msg := ms.getD i "",
    next := if i = 0 then none else some (i - 1),
    prev := if i = ms.length - 1 then none else some (i + 1) }

/-- The full heap layout produced by buildHist. -/
def expectedHist (ms : List String) : HistState :=
  ⟨(List.range ms.length).map (expectedNode ms),
    if ms.length = 0 then none else some (ms.length - 1)⟩

lemma setPrev_of_get (nodes : List ChatHist) (i : Nat) (p : Option Nat) (nd : ChatHist)
    (h : nodes[i]? = some nd) :
    setPrev nodes i p = nodes.set i { nd with prev := p } := by
  unfold setPrev
  rw [h]

lemma genmsg_some (nodes : List ChatHist) (h : Nat) (m : String) :
    genmsg ⟨nodes, some h⟩ m =
      ⟨setPrev nodes h (some nodes.length) ++ [⟨m, some h, none⟩], some nodes.length⟩ := rfl

lemma expectedHist_nodes_length (ms : List String) :
    (expectedHist ms).nodes.length = ms.length := by
  simp [expectedHist]

lemma expectedHist_getElem (ms : List String) (i : Nat) (h : i < ms.length) :
    (expectedHist ms).nodes[i]? = some (expectedNode ms i) := by
  simp [expectedHist, List.getElem?_range, h]

lemma getElem?_range_split (n i : Nat) :
    (List.range n)[i]? = if i < n then some i else none := by
  split_ifs with h
  · simp [List.getElem?_range, h]
  · exact List.getElem?_eq_none (by simpa using Nat.le_of_not_lt h)

lemma getD_str_append (ms : List String) (m : String) (i : Nat) (hi : i < ms.length) :
    (ms ++ [m]).getD i "" = ms.getD i "" := by
  simp [List.getD, List.get?_eq_getElem?, List.getElem?_append, hi]

lemma getD_str_concat (ms : List String) (m : String) :
    (ms ++ [m]).getD ms.length "" = m := by
  simp [List.getD, List.get?_eq_getElem?, List.getElem?_concat_length]

/-- buildHist produces exactly the expected heap layout. -/
lemma buildHist_eq_expected (ms : List String) : buildHist ms = expectedHist ms := by
  induction ms using List.reverseRecOn with
  | nil => rfl
  | append_singleton ms m ih =>
    rw [show buildHist (ms ++ [m]) = genmsg (buildHist ms) m by
      simp [buildHist, List.foldl_append]]
    rw [ih]
    rcases eq_or_ne ms [] with hms | hms
    · subst hms
      rfl
    · have hlen : 0 < ms.length := List.length_pos.mpr hms
      have hhead : expectedHist ms = ⟨(List.range ms.length).map (expectedNode ms),
          some (ms.length - 1)⟩ := by
        unfold expectedHist
        rw [if_neg (by omega)]
      rw [hhead, genmsg_some]
      have hNlen : ((List.range ms.length).map (expectedNode ms)).length = ms.length := by
        simp
      have hget : ((List.range ms.length).map (expectedNode ms))[ms.length - 1]? =
          some (expectedNode ms (ms.length - 1)) := by
        simp [List.getElem?_range, Nat.sub_lt hlen Nat.one_pos]
      rw [setPrev_of_get _ _ _ _ hget, hNlen]
      unfold expectedHist
      rw [if_neg (by simp)]
      simp only [HistState.mk.injEq]
      refine ⟨?_, by simp⟩
      apply List.ext_getElem?
      intro i
      rw [List.getElem?_append]
      simp only [List.length_set, List.length_map, List.length_range, List.length_append,
        List.length_singleton, List.getElem?_map, getElem?_range_split]
      rcases Nat.lt_trichotomy i ms.length with hi | hi | hi
      · rw [if_pos hi, if_pos (by omega), Option.map_some']
        rw [List.getElem?_set]
        simp only [List.length_map, List.length_range, List.getElem?_map, getElem?_range_split]
        rcases eq_or_ne i (ms.length - 1) with hil | hil
        · rw [if_pos hil.symm, if_pos (by omega)]
          simp only [Option.some.injEq]
          unfold expectedNode
          simp only [ChatHist.mk.injEq]
          refine ⟨?_, ?_, ?_⟩
          · rw [getD_str_append ms m i hi, hil]
          · rw [hil]
          · rw [if_neg (by simp; omega)]
            simp only [Option.some.injEq]
            omega
        · rw [if_neg (fun h => hil h.symm), if_pos hi, Option.map_some']
          simp only [Option.some.injEq]
          unfold expectedNode
          simp only [ChatHist.mk.injEq]
          refine ⟨?_, trivial, ?_⟩
          · rw [getD_str_append ms m i hi]
          · rw [if_neg hil, if_neg (by simp; omega)]
      · subst hi
        rw [if_neg (by omega), if_pos (by omega), Option.map_some']
        rw [show ms.length - ms.length = 0 by omega]
        simp only [List.getElem?_cons_zero, Option.some.injEq]
        unfold expectedNode
        simp only [ChatHist.mk.injEq]
        refine ⟨(getD_str_concat ms m).symm, by rw [if_neg (by omega)], by rw [if_pos (by simp)]⟩
      · rw [if_neg (by omega), if_neg (by omega)]
        rw [List.getElem?_eq_none (by simp; omega)]
        rfl

/-- collectPrev from a NULL cursor yields nothing. -/
lemma collectPrev_none (s : HistState) (n fuel : Nat) :
    collectPrev s none n fuel = [] := by
  match n, fuel with
  | 0, _ => rw [collectPrev]
  | _ + 1, 0 => rw [collectPrev]
  | _ + 1, _ + 1 => rw [collectPrev]

/-- Following forward links from node j of the expected layout reaches
node 0, the oldest entry. -/
lemma walkNext_expected (ms : List String) (j : Nat) (hj : j < ms.length) :
    ∀ fuel, j + 1 ≤ fuel → walkNext (expectedHist ms) (some j) fuel = some 0 := by
  induction j with
  | zero =>
    intro fuel hf
    match fuel, hf with
    | fuel + 1, _ =>
      rw [walkNext_some, expectedHist_getElem ms 0 (by omega)]
      rfl
  | succ j ih =>
    intro fuel hf
    match fuel, hf with
    | fuel + 1, _ =>
      rw [walkNext_some, expectedHist_getElem ms (j + 1) hj]
      show walkNext (expectedHist ms) (some j) fuel = some 0
      exact ih (by omega) fuel (by omega)

/-- Following backward links from node i of the expected layout yields the
messages from the i-th oldest onward, at most n of them. -/
lemma collectPrev_expected (ms : List String) :
    ∀ n i fuel, i < ms.length → ms.length - i ≤ fuel →
      collectPrev (expectedHist ms) (some i) n fuel = (ms.drop i).take n := by
  intro n
  induction n with
  | zero =>
    intro i fuel hi hf
    rw [collectPrev, List.take_zero]
  | succ n ih =>
    intro i fuel hi hf
    match fuel, (show 1 ≤ fuel by omega) with
    | fuel + 1, _ =>
      rw [collectPrev_some, expectedHist_getElem ms i hi]
      show (expectedNode ms i).msg :: collectPrev (expectedHist ms) (expectedNode ms i).prev n fuel
          = (ms.drop i).take (n + 1)
      rw [List.drop_eq_getElem_cons hi, List.take_succ_cons]
      have hmsg : (expectedNode ms i).msg = ms[i] := by
        unfold expectedNode
        exact List.getD_eq_getElem ms "" hi
      rcases eq_or_ne i (ms.length - 1) with hlast | hlast
      · rw [show (expectedNode ms i).prev = none by unfold expectedNode; rw [if_pos hlast]]
        rw [collectPrev_none, hmsg]
        rw [show i + 1 = ms.length by omega, List.drop_length, List.take_nil]
      · rw [show (expectedNode ms i).prev = some (i + 1) by
          unfold expectedNode
          rw [if_neg hlast]]
        rw [ih (i + 1) fuel (by omega) (by omega), hmsg]

/-- C3: for every chat history built by prepending entries m1 (oldest)
through mk (newest), the read loop of command_history walks to the oldest
node via forward links, then follows backward links toward newer entries,
yielding the first n messages in oldest-to-newer order (bounded from the
oldest end); in particular for entries m1, m2, m3 a read of 2 yields
[m1, m2]. -/
theorem history_read_oldest_first :
    (∀ (ms : List String) (n : Nat), historyRead (buildHist ms) n = ms.take n) ∧
      historyRead (buildHist [ "m1", "m2", "m3" ]) 2 = [ "m1", "m2" ] := by
  have main : ∀ (ms : List String) (n : Nat), historyRead (buildHist ms) n = ms.take n := by
    intro ms n
    rw [buildHist_eq_expected]
    rcases eq_or_ne ms [] with h | h
    · subst h
      unfold historyRead
      rw [show walkNext (expectedHist []) (expectedHist []).head
          ((expectedHist []).nodes.length + 1) = none from rfl]
      rw [collectPrev_none, List.take_nil]
    · have hlen : 0 < ms.length := List.length_pos.mpr h
      unfold historyRead
      rw [expectedHist_nodes_length]
      rw [show (expectedHist ms).head = some (ms.length - 1) by
        unfold expectedHist
        rw [if_neg (by omega)]]
      rw [walkNext_expected ms (ms.length - 1) (by omega) (ms.length + 1) (by omega)]
      rw [collectPrev_expected ms n 0 (ms.length + 1) (by omega) (by omega)]
      rw [List.drop_zero]
  exact ⟨main, by rw [main]; rfl⟩

/-! ### Pending request queue (minitox.c lines 110-121, 557-600, 1018-1068)

struct Request is a singly-linked queue node; the queue is the list from
the global `requests` head. The union RequestUserData keyed by
is_friend_request is modelled as a sum type. -/

inductive RequestUserData where
  | friend (pubkey : List Nat)
  | group (friend_num : Nat) (cookie : List Nat)
deriving Repr, DecidableEq

structure Request where
  msg : String
  id : Nat
  is_friend_request : Bool
  userdata : RequestUserData
deriving Repr, DecidableEq

/-- (requests != NULL) ? requests->id : 0. -/
def headId (reqs : List Request) : Nat :=
  match reqs with
  | [] => 0
  | r :: _ => r.id

/-- req->id = 1 + ((requests != NULL) ? requests->id : 0), in uint32
arithmetic. -/
def nextRequestId (reqs : List Request) : Nat :=
  (1 + headId reqs) % UINT32_MOD

/-- friend_request_cb: prepend a friend request carrying the sender's
public key and message. -/
def friend_request_cb (reqs : List Request) (public_key : List Nat) (message : String) :
    List Request :=
  { msg := message, id := nextRequestId reqs, is_friend_request := true,
    userdata := RequestUserData.friend public_key } :: reqs

/-- group_invite_cb, lines 586-598: the enqueue performed when the inviting
friend exists and the invite is a text conference; msg is "From <name>". -/
def group_invite_enqueue (reqs : List Request) (friend_num : Nat) (cookie : List Nat)
    (friendName : String) : List Request :=
  { msg := "From " ++ friendName, id := nextRequestId reqs, is_friend_request := false,
    userdata := RequestUserData.group friend_num cookie } :: reqs

/-- The LIST_FIND + unlink step of _command_accept: remove the first
request whose id equals request_idx; no-op when none matches. -/
def removeRequest : List Request → Nat → List Request
  | [], _ => []
  | r :: rest, request_idx =>
    if r.id = request_idx then rest else r :: removeRequest rest request_idx

/-- The LIST_FIND of _command_accept: the first request with this id. -/
def findRequest : List Request → Nat → Option Request
  | [], _ => none
  | r :: rest, request_idx =>
    if r.id = request_idx then some r else findRequest rest request_idx

/-- friend_request_cb unfolded to the list cons it performs. -/
lemma friend_request_cb_def (reqs : List Request) (pk : List Nat) (m : String) :
    friend_request_cb reqs pk m =
      { msg := m, id := nextRequestId reqs, is_friend_request := true,
        userdata := RequestUserData.friend pk } :: reqs := rfl

/-- One queue operation of a run: an incoming friend request, an incoming
group invite, or an accept/deny (both remove the request by id). -/
inductive ReqOp where
  | enqFriend (pk : List Nat) (m : String)
  | enqGroup (friend_num : Nat) (cookie : List Nat) (friendName : String)
  | rem (request_idx : Nat)
deriving Repr, DecidableEq

def applyReqOp (reqs : List Request) : ReqOp → List Request
  | ReqOp.enqFriend pk m => friend_request_cb reqs pk m
  | ReqOp.enqGroup fn ck fname => group_invite_enqueue reqs fn ck fname
  | ReqOp.rem i => removeRequest reqs i

/-- The ids assigned by the enqueues of a run, in order of assignment. -/
def assignedIds (reqs : List Request) : List ReqOp → List Nat
  | [] => []
  | op :: rest =>
    match op with
    | ReqOp.rem _ => assignedIds (applyReqOp reqs op) rest
    | _ => nextRequestId reqs :: assignedIds (applyReqOp reqs op) rest

/-- The number of enqueue operations in a run. -/
def numEnqueues : List ReqOp → Nat
  | [] => 0
  | ReqOp.rem _ :: rest => numEnqueues rest
  | _ :: rest => numEnqueues rest + 1

/-- Whether no removal of the run targets the request at the head of the
queue at the moment the removal executes. -/
def noHeadRemoval (reqs : List Request) : List ReqOp → Bool
  | [] => true
  | op :: rest =>
    match op with
    | ReqOp.rem i =>
      (match reqs with
        | [] => true
        | r :: _ => r.id != i) && noHeadRemoval (applyReqOp reqs op) rest
    | _ => noHeadRemoval (applyReqOp reqs op) rest

/-- The trace that refutes C2: two requests arrive (ids 1 and 2), the
second (the queue head) is denied, and a third request arrives — it is
assigned id 2 again, because the id is computed from the current head. -/
def reuseOps : List ReqOp :=
  [ReqOp.enqFriend [] "a", ReqOp.enqFriend [] "b", ReqOp.rem 2, ReqOp.enqFriend [] "c"]

/-- C2 counterexample: after removing the head request, the next enqueue
reuses its id: the trace reuseOps assigns ids 1, 2, 2 — not pairwise
distinct. -/
theorem request_id_reuse_counterexample :
    assignedIds [] reuseOps = [1, 2, 2] ∧
      ¬ List.Pairwise (· ≠ ·) (assignedIds [] reuseOps) := by
  decide

lemma assignedIds_spec (ops : List ReqOp) :
    ∀ (reqs : List Request) (k : Nat),
      ((reqs = [] ∧ k = 0) ∨ (reqs ≠ [] ∧ headId reqs = k)) →
      k + numEnqueues ops ≤ UINT32_MOD - 1 →
      noHeadRemoval reqs ops = true →
      assignedIds reqs ops = List.range' (k + 1) (numEnqueues ops) := by
  induction ops with
  | nil => intro reqs k hk hbound hnh; rfl
  | cons op rest ih =>
    intro reqs k hk hbound hnh
    have hkid : headId reqs = k := by
      rcases hk with ⟨h1, h2⟩ | ⟨h1, h2⟩
      · rw [h1, h2]; rfl
      · exact h2
    match op with
    | ReqOp.enqFriend pk m =>
      have hnext : nextRequestId reqs = k + 1 := by
        unfold nextRequestId
        rw [hkid]
        have : 1 + k < UINT32_MOD := by
          have := hbound
          unfold numEnqueues at this
          unfold UINT32_MOD at this ⊢
          omega
        rw [Nat.mod_eq_of_lt this]
        omega
      show nextRequestId reqs :: assignedIds (friend_request_cb reqs pk m) rest =
        List.range' (k + 1) (numEnqueues (ReqOp.enqFriend pk m :: rest))
      rw [hnext]
      rw [show numEnqueues (ReqOp.enqFriend pk m :: rest) = numEnqueues rest + 1 from rfl]
      rw [List.range'_succ]
      rw [ih (friend_request_cb reqs pk m) (k + 1)
        (Or.inr ⟨by simp [friend_request_cb], by simp [friend_request_cb, headId, hnext]⟩)
        (by unfold numEnqueues at hbound; omega)
        hnh]
    | ReqOp.enqGroup fn ck fname =>
      have hnext : nextRequestId reqs = k + 1 := by
        unfold nextRequestId
        rw [hkid]
        have : 1 + k < UINT32_MOD := by
          have := hbound
          unfold numEnqueues at this
          unfold UINT32_MOD at this ⊢
          omega
        rw [Nat.mod_eq_of_lt this]
        omega
      show nextRequestId reqs :: assignedIds (group_invite_enqueue reqs fn ck fname) rest =
        List.range' (k + 1) (numEnqueues (ReqOp.enqGroup fn ck fname :: rest))
      rw [hnext]
      rw [show numEnqueues (ReqOp.enqGroup fn ck fname :: rest) = numEnqueues rest + 1 from rfl]
      rw [List.range'_succ]
      rw [ih (group_invite_enqueue reqs fn ck fname) (k + 1)
        (Or.inr ⟨by simp [group_invite_enqueue], by simp [group_invite_enqueue, headId, hnext]⟩)
        (by unfold numEnqueues at hbound; omega)
        hnh]
    | ReqOp.rem i =>
      show assignedIds (removeRequest reqs i) rest =
        List.range' (k + 1) (numEnqueues (ReqOp.rem i :: rest))
      rw [show numEnqueues (ReqOp.rem i :: rest) = numEnqueues rest from rfl]
      match reqs, hk, hkid, hnh with
      | [], hk, hkid, hnh =>
        have hk0 : k = 0 := by
          rcases hk with ⟨_, h⟩ | ⟨hne, _⟩
          · exact h
          · exact absurd rfl hne
        exact ih [] k (Or.inl ⟨rfl, hk0⟩) (by unfold numEnqueues at hbound; omega) hnh
      | r :: rest', hk, hkid, hnh =>
        have hsplit : noHeadRemoval (r :: rest') (ReqOp.rem i :: rest) =
            ((r.id != i) && noHeadRemoval (removeRequest (r :: rest') i) rest) := rfl
        rw [hsplit, Bool.and_eq_true] at hnh
        have hne : r.id ≠ i := by simpa using hnh.1
        have hrem : removeRequest (r :: rest') i = r :: removeRequest rest' i := by
          rw [removeRequest, if_neg hne]
        rw [hrem]
        refine ih (r :: removeRequest rest' i) k (Or.inr ⟨by simp, ?_⟩)
          (by unfold numEnqueues at hbound; omega) (by rw [← hrem]; exact hnh.2)
        rw [show headId (r :: removeRequest rest' i) = r.id from rfl]
        rw [show headId (r :: rest') = r.id from rfl] at hkid
        exact hkid

/-- C2 (amended): pending-request ids are never reused as long as no
accept/deny removes the request at the head of the queue (and fewer than
2^32 ids are handed out): every id assigned by an enqueue is distinct from
every id assigned earlier, even after removals of non-head requests have
created gaps. Removing the head request makes the next assigned id collide
with the removed one (see the counterexample). -/
theorem request_ids_never_reused (ops : List ReqOp)
    (hbound : numEnqueues ops ≤ UINT32_MOD - 1)
    (hnh : noHeadRemoval [] ops = true) :
    List.Pairwise (· ≠ ·) (assignedIds [] ops) := by
  rw [assignedIds_spec ops [] 0 (Or.inl ⟨rfl, rfl⟩) (by omega) hnh]
  exact List.nodup_range' (0 + 1) (numEnqueues ops) 1 Nat.one_pos

/-- Witness for C2 (amended): two requests, denial of the non-head request
id 1, then another request; ids 1, 2, 3 are pairwise distinct. -/
theorem request_ids_never_reused_witness :
    (numEnqueues [ReqOp.enqFriend [] "a", ReqOp.enqGroup 0 [] "g", ReqOp.rem 1,
        ReqOp.enqFriend [] "c"] ≤ UINT32_MOD - 1 ∧
      noHeadRemoval [] [ReqOp.enqFriend [] "a", ReqOp.enqGroup 0 [] "g", ReqOp.rem 1,
        ReqOp.enqFriend [] "c"] = true) ∧
      List.Pairwise (· ≠ ·) (assignedIds [] [ReqOp.enqFriend [] "a", ReqOp.enqGroup 0 [] "g",
        ReqOp.rem 1, ReqOp.enqFriend [] "c"]) :=
  ⟨⟨by decide, by decide⟩,
    request_ids_never_reused _ (by decide) (by decide)⟩

/-- A queue state whose head id is UINT32_MAX - 1, at the uint32 wrap
boundary. -/
def wrapRequest : Request :=
  { msg := "w", id := UINT32_MOD - 2, is_friend_request := true,
    userdata := RequestUserData.friend [] }

/-- C6 counterexample: on a queue whose head id is 2^32 - 2, the first
enqueue is assigned id 2^32 - 1 and the second wraps to id 0, which is not
first.id + 1. -/
theorem second_request_id_wrap_counterexample :
    nextRequestId [wrapRequest] = UINT32_MOD - 1 ∧
      nextRequestId (friend_request_cb [wrapRequest] [] "a") = 0 ∧
      nextRequestId (friend_request_cb [wrapRequest] [] "a") ≠
        nextRequestId [wrapRequest] + 1 := by
  refine ⟨by decide, by decide, by decide⟩

/-- C6 (amended): for every pending-request queue state whose head id is
below 2^32 - 2 (no uint32 wrap), enqueueing a request and then a second
assigns the second the id first.id + 1, and denying the first removes
exactly the first: the second stays, with its id unchanged, in front of the
untouched rest of the queue. -/
theorem deny_first_keeps_second (q : List Request) (pk1 pk2 : List Nat) (m1 m2 : String)
    (hq : headId q + 2 < UINT32_MOD) :
    nextRequestId (friend_request_cb q pk1 m1) = nextRequestId q + 1 ∧
      removeRequest (friend_request_cb (friend_request_cb q pk1 m1) pk2 m2)
          (nextRequestId q) =
        { msg := m2, id := nextRequestId q + 1, is_friend_request := true,
          userdata := RequestUserData.friend pk2 } :: q := by
  have hid1 : nextRequestId q = 1 + headId q := by
    unfold nextRequestId
    exact Nat.mod_eq_of_lt (by omega)
  have hid2 : nextRequestId (friend_request_cb q pk1 m1) = nextRequestId q + 1 := by
    show (1 + headId (friend_request_cb q pk1 m1)) % UINT32_MOD = nextRequestId q + 1
    rw [show headId (friend_request_cb q pk1 m1) = nextRequestId q from rfl, hid1]
    rw [Nat.mod_eq_of_lt (by omega)]
    omega
  refine ⟨hid2, ?_⟩
  rw [friend_request_cb_def (friend_request_cb q pk1 m1) pk2 m2, hid2,
    friend_request_cb_def q pk1 m1]
  rw [removeRequest]
  rw [if_neg (by show ¬(nextRequestId q + 1 = nextRequestId q); omega)]
  rw [removeRequest]
  rw [if_pos rfl]

/-- Witness for C6 (amended) on the empty queue: ids 1 and 2, deny of id 1
leaves only the id-2 request. -/
theorem deny_first_keeps_second_witness :
    headId [] + 2 < UINT32_MOD ∧
      (nextRequestId (friend_request_cb [] [7] "hello") = nextRequestId [] + 1 ∧
        removeRequest (friend_request_cb (friend_request_cb [] [7] "hello") [8] "hi")
            (nextRequestId []) =
          { msg := "hi", id := nextRequestId [] + 1, is_friend_request := true,
            userdata := RequestUserData.friend [8] } :: []) :=
  ⟨by decide, deny_first_keeps_second [] [7] [8] "hello" "hi" (by decide)⟩

/-! ### Session directory (minitox.c lines 129-167, 245-314, 337-353)

Friends and groups are singly-linked lists from the globals `friends` and
`groups`; TalkingTo is the active CombinedIndex (TALK_TYPE_NULL when in
command mode). -/

structure GroupPeer where
  pubkey : List Nat
  name : String
deriving Repr, DecidableEq

structure Friend where
  friend_num : Nat
  name : String
  status_message : String
  pubkey : List Nat
  connection : Nat
  hist : HistState
deriving Repr, DecidableEq

structure Group where
  group_num : Nat
  title : String
  peers : List GroupPeer
  hist : HistState
deriving Repr, DecidableEq

/-- The global mutable state of the client that the REPL manipulates:
the session directory, the pending request queue, TalkingTo and the self
record (name and status message). -/
structure ClientState where
  friends : List Friend
  groups : List Group
  requests : List Request
  talkingTo : Nat
  selfName : String
  selfStatus : String
deriving Repr, DecidableEq

/-- getfriend: LIST_FIND over `friends` by friend_num (first match). -/
def getfriend : List Friend → Nat → Option Friend
  | [], _ => none
  | f :: rest, n => if f.friend_num = n then some f else getfriend rest n

/-- getgroup: LIST_FIND over `groups` by group_num (first match). -/
def getgroup : List Group → Nat → Option Group
  | [], _ => none
  | g :: rest, n => if g.group_num = n then some g else getgroup rest n

/-- addfriend: prepend a zero-initialized Friend (connection NONE, pubkey
fetched from the backend). -/
def addfriend (fs : List Friend) (friend_num : Nat) (pubkey : List Nat) : List Friend :=
  { friend_num := friend_num, name := "", status_message := "", pubkey := pubkey,
    connection := 0, hist := emptyHist } :: fs

/-- addgroup: prepend a zero-initialized Group. -/
def addgroup (gs : List Group) (group_num : Nat) : List Group :=
  { group_num := group_num, title := "", peers := [], hist := emptyHist } :: gs

/-- delfriend: unlink the first friend with this friend_num (releasing its
chat history); none when no friend matches (C returns 0). -/
def delfriend : List Friend → Nat → Option (List Friend)
  | [], _ => none
  | f :: rest, n =>
    if f.friend_num = n then some rest else (delfriend rest n).map (f :: ·)

/-- delgroup: unlink the first group with this group_num. -/
def delgroup : List Group → Nat → Option (List Group)
  | [], _ => none
  | g :: rest, n =>
    if g.group_num = n then some rest else (delgroup rest n).map (g :: ·)

/-- Update the first friend with this friend_num (the node LIST_FIND would
reach). -/
def updateFriend : List Friend → Nat → (Friend → Friend) → List Friend
  | [], _, _ => []
  | f :: rest, n, g => if f.friend_num = n then g f :: rest else f :: updateFriend rest n g

/-- Update the first group with this group_num. -/
def updateGroup : List Group → Nat → (Group → Group) → List Group
  | [], _, _ => []
  | gr :: rest, n, g => if gr.group_num = n then g gr :: rest else gr :: updateGroup rest n g

/-- get_current_histp: NULL when TalkingTo is the sentinel or the decoded
session does not exist; otherwise a handle (kind, num) to the session
owning the history (the C function returns a pointer to its hist field).
INDEX_TO_TYPE is idx % 2, so the switch's two cases are exhaustive. -/
def get_current_histp (st : ClientState) : Option (Nat × Nat) :=
  if st.talkingTo = TALK_TYPE_NULL then none
  else
    let num := INDEX_TO_NUM st.talkingTo
    if INDEX_TO_TYPE st.talkingTo = TALK_TYPE_FRIEND then
      match getfriend st.friends num with
      | some _ => some (TALK_TYPE_FRIEND, num)
      | none => none
    else
      match getgroup st.groups num with
      | some _ => some (TALK_TYPE_GROUP, num)
      | none => none

/-- The chat history owned by the session a get_current_histp handle
points to. -/
def sessionHist (st : ClientState) (ty num : Nat) : HistState :=
  if ty = TALK_TYPE_FRIEND then
    match getfriend st.friends num with
    | some f => f.hist
    | none => emptyHist
  else
    match getgroup st.groups num with
    | some g => g.hist
    | none => emptyHist

/-! ### str2uint (minitox.c lines 193-199)

strtol base 10 on a 64-bit long: skip leading whitespace, optional sign,
digit run (clamped to LONG_MAX on overflow); fail when no digits were
consumed (str_end == str) or the value is negative; the result is cast to
uint32_t. -/

/-- The characters isspace accepts (C locale). -/
def isSpaceC (c : Char) : Bool :=
  c = ' ' ∨ c = '\t' ∨ c = '\n' ∨ c = '\x0b' ∨ c = '\x0c' ∨ c = '\x0d'

/-- Value of a digit run. -/
def digitsVal (ds : List Char) : Nat :=
  ds.foldl (fun acc c => acc * 10 + (c.toNat - '0'.toNat)) 0

/-- LONG_MAX on a 64-bit platform, strtol's clamp on overflow. -/
def LONG_MAX : Nat := 2 ^ 63 - 1

/-- str2uint(str, num): strtol in base 10, reject when nothing was parsed
or the value is negative, then cast the long to uint32_t. -/
def str2uint (s : List Char) : Option Nat :=
  let cs := s.dropWhile isSpaceC
  let neg : Bool :=
    match cs with
    | '-' :: _ => true
    | _ => false
  let cs2 :=
    match cs with
    | '-' :: rest => rest
    | '+' :: rest => rest
    | _ => cs
  let ds := cs2.takeWhile Char.isDigit
  if ds = [] then none
  else
    let v := min (digitsVal ds) LONG_MAX
    if neg ∧ v ≠ 0 then none
    else some (v % UINT32_MOD)

/-! ### Tokenizer and command registry (minitox.c lines 91-98, 1128-1245) -/

/-- The delimiters of poptok: " \t". -/
def isDem (c : Char) : Bool := c = ' ' ∨ c = '\t'

/-- poptok(strp): cut the token before the first delimiter; the remainder
(after skipping the delimiter run) replaces *strp, or NULL when no
delimiter was found. -/
def poptok (l : List Char) : List Char × Option (List Char) :=
  match l.dropWhile (fun c => !isDem c) with
  | [] => (l, none)
  | _ :: r => (l.takeWhile (fun c => !isDem c), some (r.dropWhile isDem))

/-- The token-gathering loop of repl_iterate, indexed by the remaining
token budget narg - ntok: while l != NULL and ntok != narg, pop a token,
except that the last one (ntok == narg - 1) takes the whole rest of the
line. -/
def gatherAux : Option (List Char) → Nat → List (List Char)
  | none, _ => []
  | some _, 0 => []
  | some s, 1 => [s]
  | some s, remaining + 2 =>
    (poptok s).1 :: gatherAux (poptok s).2 (remaining + 1)

/-- The tokens collected for a command of arity narg. -/
def gatherTokens (l : Option (List Char)) (narg : Nat) : List (List Char) :=
  gatherAux l narg

/-- The handler a command entry points to. -/
inductive CmdTag where
  | guide | help | save | info | setname | setstmsg | add | del
  | contacts | go | history | accept | deny | invite | settitle
deriving Repr, DecidableEq

/-- struct Command: name, description, arity contract and handler. -/
structure Command where
  name : String
  desc : String
  narg : Nat
  tag : CmdTag
deriving Repr, DecidableEq

/-- The static commands[] registry, with the narg contracts of the
source (narg >= COMMAND_ARGS_REST marks variable arity). -/
def commands : List Command :=
  [ { name := "guide", desc := "- print the guide", narg := 0, tag := CmdTag.guide },
    { name := "help", desc := "- print this message.", narg := 0, tag := CmdTag.help },
    { name := "save", desc := "- save your data.", narg := 0, tag := CmdTag.save },
    { name := "info", desc := "[<contact_index>] - show one contact's info, or yourself's info if <contact_index> is empty. ", narg := 0 + COMMAND_ARGS_REST, tag := CmdTag.info },
    { name := "setname", desc := "<name> - set your name", narg := 1, tag := CmdTag.setname },
    { name := "setstmsg", desc := "<status_message> - set your status message.", narg := 1, tag := CmdTag.setstmsg },
    { name := "add", desc := "<toxid> <msg> - add friend", narg := 2, tag := CmdTag.add },
    { name := "del", desc := "<contact_index> - del a contact.", narg := 1, tag := CmdTag.del },
    { name := "contacts", desc := "- list your contacts(friends and groups).", narg := 0, tag := CmdTag.contacts },
    { name := "go", desc := "[<contact_index>] - goto talk to a contact, or goto cmd mode if <contact_index> is empty.", narg := 0 + COMMAND_ARGS_REST, tag := CmdTag.go },
    { name := "history", desc := "[<n>] - show previous <n> items(default:10) of current chat history", narg := 0 + COMMAND_ARGS_REST, tag := CmdTag.history },
    { name := "accept", desc := "[<request_index>] - accept or list(if no <request_index> was provided) friend/group requests.", narg := 0 + COMMAND_ARGS_REST, tag := CmdTag.accept },
    { name := "deny", desc := "[<request_index>] - deny or list(if no <request_index> was provided) friend/group requests.", narg := 0 + COMMAND_ARGS_REST, tag := CmdTag.deny },
    { name := "invite", desc := "<friend_contact_index> [<group_contact_index>] - invite a friend to a group chat. default: create a group.", narg := 1 + COMMAND_ARGS_REST, tag := CmdTag.invite },
    { name := "settitle", desc := "<group_contact_index> <title> - set group title.", narg := 2, tag := CmdTag.settitle } ]

/-- The strcmp scan of repl_iterate over commands[] (first match). -/
def findCommand : List Command → List Char → Option Command
  | [], _ => none
  | c :: rest, nm => if c.name.toList = nm then some c else findCommand rest nm

/-! ### Command handlers and the per-line REPL step (minitox.c 801-1317)

Terminal output is recorded as events (colors and exact formatting
elided); tox backend calls are modelled by a Backend record holding each
call's result. -/

/-- Observable effects of processing one completed line. -/
inductive ReplEvent where
  | printed (s : String)
  | warned (s : String)
  | printedHistory (items : List String)
  | printedRequests (items : List (Nat × Bool × String))
  | chatSelf (msg : String)
  | sentFriendMsg (friend_num : Nat) (msg : List Char)
  | sentGroupMsg (group_num : Nat) (msg : List Char)
  | echoedCmd (line : List Char)
  | invokedHandler (name : String) (ntok : Nat) (tokens : List (List Char))
  | savedData
deriving Repr, DecidableEq

/-- Results of the tox backend calls the handlers make: some num on
success, none (or false) on a backend error. -/
structure Backend where
  friend_add : Option Nat
  friend_add_norequest : Option Nat
  conference_new : Option Nat
  conference_join : Option Nat
  conference_invite_ok : Bool
  set_name_ok : Bool
  set_status_ok : Bool
  set_title_ok : Bool
  friend_pubkey : List Nat
deriving Repr, DecidableEq

def invalidCmdMsg : String := "! Invalid command, use `/help` to get list of available commands."

def wrongArityMsg : String := "Wrong number of cmd args"

def notTalkingMsg : String := "! You are not talking to someone. use `/go` to return to cmd mode"

def invalidContactMsg : String := "^ Invalid contact index"

def invalidRequestMsg : String := "Invalid request index"

/-- "%12.12s": right-aligned, truncated to width 12. -/
def fmt12 (s : String) : String :=
  String.mk (List.replicate (12 - (s.toList.take 12).length) ' ' ++ s.toList.take 12)

/-- The SELF_MSG_PREFIX "%.*s" rendering of one's own chat line
(genmsg's format arguments; colors elided). -/
def formatSelfMsg (ftime selfName : String) (line : List Char) : String :=
  ftime ++ "  " ++ fmt12 selfName ++ " | " ++ String.mk line

/-- The request listing printed by /accept and /deny without arguments. -/
def listRequests (reqs : List Request) : List (Nat × Bool × String) :=
  reqs.map (fun r => (r.id, r.is_friend_request, r.msg))

def command_guide (st : ClientState) : ClientState × List ReplEvent :=
  (st, [ReplEvent.printed "guide"])

def command_help (st : ClientState) : ClientState × List ReplEvent :=
  (st, [ReplEvent.printed "help"])

def command_save (st : ClientState) : ClientState × List ReplEvent :=
  (st, [ReplEvent.savedData])

def command_info (st : ClientState) (args : List (List Char)) : ClientState × List ReplEvent :=
  match args with
  | [] => (st, [ReplEvent.printed "self info"])
  | a :: _ =>
    match str2uint a with
    | none => (st, [ReplEvent.warned invalidContactMsg])
    | some contact_idx =>
      let num := INDEX_TO_NUM contact_idx
      if INDEX_TO_TYPE contact_idx = TALK_TYPE_FRIEND then
        match getfriend st.friends num with
        | some _ => (st, [ReplEvent.printed "friend info"])
        | none => (st, [ReplEvent.warned invalidContactMsg])
      else
        match getgroup st.groups num with
        | some _ => (st, [ReplEvent.printed "group info"])
        | none => (st, [ReplEvent.warned invalidContactMsg])

def command_setname (be : Backend) (st : ClientState) (args : List (List Char)) :
    ClientState × List ReplEvent :=
  match args with
  | [] => (st, [])
  | a :: _ =>
    if be.set_name_ok then ({ st with selfName := String.mk a }, [])
    else (st, [ReplEvent.warned "! set name failed"])

def command_setstmsg (be : Backend) (st : ClientState) (args : List (List Char)) :
    ClientState × List ReplEvent :=
  match args with
  | [] => (st, [])
  | a :: _ =>
    if be.set_status_ok then ({ st with selfStatus := String.mk a }, [])
    else (st, [ReplEvent.warned "! set status message failed"])

def command_add (be : Backend) (st : ClientState) (args : List (List Char)) :
    ClientState × List ReplEvent :=
  match args with
  | [] => (st, [])
  | _ :: _ =>
    match be.friend_add with
    | none => (st, [ReplEvent.warned "! add friend failed"])
    | some friend_num =>
      ({ st with friends := addfriend st.friends friend_num be.friend_pubkey }, [])

def command_del (st : ClientState) : List (List Char) → ClientState × List ReplEvent
  | [] => (st, [])
  | a :: _ =>
    match str2uint a with
    | none => (st, [ReplEvent.warned invalidContactMsg])
    | some contact_idx =>
      let num := INDEX_TO_NUM contact_idx
      if INDEX_TO_TYPE contact_idx = TALK_TYPE_FRIEND then
        match delfriend st.friends num with
        | some fs => ({ st with friends := fs }, [])
        | none => (st, [ReplEvent.warned invalidContactMsg])
      else
        match delgroup st.groups num with
        | some gs => ({ st with groups := gs }, [])
        | none => (st, [ReplEvent.warned invalidContactMsg])

def command_contacts (st : ClientState) : ClientState × List ReplEvent :=
  (st, [ReplEvent.printed "contacts"])

def command_go (st : ClientState) : List (List Char) → ClientState × List ReplEvent
  | [] => ({ st with talkingTo := TALK_TYPE_NULL }, [])
  | a :: _ =>
    match str2uint a with
    | none => (st, [ReplEvent.warned invalidContactMsg])
    | some contact_idx =>
      let num := INDEX_TO_NUM contact_idx
      if INDEX_TO_TYPE contact_idx = TALK_TYPE_FRIEND then
        match getfriend st.friends num with
        | some _ => ({ st with talkingTo := contact_idx }, [])
        | none => (st, [ReplEvent.warned invalidContactMsg])
      else
        match getgroup st.groups num with
        | some _ => ({ st with talkingTo := contact_idx }, [])
        | none => (st, [ReplEvent.warned invalidContactMsg])

def command_history_run (st : ClientState) (args : List (List Char)) :
    ClientState × List ReplEvent :=
  let parsed : Nat × List ReplEvent :=
    match args with
    | [] => (DEFAULT_CHAT_HIST_COUNT, [])
    | a :: _ =>
      match str2uint a with
      | some v => (v, [])
      | none => (DEFAULT_CHAT_HIST_COUNT, [ReplEvent.warned "Invalid args"])
  match get_current_histp st with
  | none => (st, parsed.2 ++ [ReplEvent.warned "you are not talking to someone"])
  | some (ty, num) =>
    (st, parsed.2 ++ [ReplEvent.printedHistory (historyRead (sessionHist st ty num) parsed.1)])

/-- _command_accept(narg, args, is_accept): with no argument, list the
queue; otherwise remove the request by id (terminal regardless of the
backend result) and, on accept, materialize it via the backend. -/
def _command_accept (be : Backend) (st : ClientState) (args : List (List Char))
    (is_accept : Bool) : ClientState × List ReplEvent :=
  match args with
  | [] => (st, [ReplEvent.printedRequests (listRequests st.requests)])
  | a :: _ =>
    match str2uint a with
    | none => (st, [ReplEvent.warned invalidRequestMsg])
    | some request_idx =>
      match findRequest st.requests request_idx with
      | none => (st, [ReplEvent.warned invalidRequestMsg])
      | some req =>
        let st1 := { st with requests := removeRequest st.requests request_idx }
        if is_accept then
          if req.is_friend_request then
            match be.friend_add_norequest with
            | none => (st1, [ReplEvent.warned "! accept friend request failed"])
            | some friend_num =>
              ({ st1 with friends := addfriend st1.friends friend_num be.friend_pubkey }, [])
          else
            match be.conference_join with
            | none => (st1, [ReplEvent.warned "! join group failed"])
            | some group_num => ({ st1 with groups := addgroup st1.groups group_num }, [])
        else (st1, [])

def command_invite (be : Backend) (st : ClientState) (args : List (List Char)) :
    ClientState × List ReplEvent :=
  match args with
  | [] => (st, [])
  | a :: rest =>
    match str2uint a with
    | none => (st, [ReplEvent.warned "Invalid friend contact index"])
    | some friend_contact_idx =>
      if INDEX_TO_TYPE friend_contact_idx ≠ TALK_TYPE_FRIEND then
        (st, [ReplEvent.warned "Invalid friend contact index"])
      else
        match rest with
        | [] =>
          match be.conference_new with
          | none => (st, [ReplEvent.warned "! Create group failed"])
          | some group_num =>
            let st1 := { st with groups := addgroup st.groups group_num }
            if be.conference_invite_ok then (st1, [])
            else (st1, [ReplEvent.warned "! Group invite failed"])
        | b :: _ =>
          match str2uint b with
          | none => (st, [ReplEvent.warned "! Invalid group contact index"])
          | some group_contact_idx =>
            if INDEX_TO_TYPE group_contact_idx ≠ TALK_TYPE_GROUP then
              (st, [ReplEvent.warned "! Invalid group contact index"])
            else
              if be.conference_invite_ok then (st, [])
              else (st, [ReplEvent.warned "! Group invite failed"])

def command_settitle (be : Backend) (st : ClientState) (args : List (List Char)) :
    ClientState × List ReplEvent :=
  match args with
  | [] => (st, [])
  | a :: rest =>
    match str2uint a with
    | none => (st, [ReplEvent.warned "! Invalid group contact index"])
    | some group_contact_idx =>
      if INDEX_TO_TYPE group_contact_idx ≠ TALK_TYPE_GROUP then
        (st, [ReplEvent.warned "! Invalid group contact index"])
      else
        let group_num := INDEX_TO_NUM group_contact_idx
        match getgroup st.groups group_num with
        | none => (st, [ReplEvent.warned "! Invalid group contact index"])
        | some _ =>
          match rest with
          | [] => (st, [])
          | title :: _ =>
            if be.set_title_ok then
              let gs := updateGroup st.groups group_num
                (fun g => { g with title := String.mk title })
              ({ st with groups := gs }, [])
            else (st, [ReplEvent.warned "! Set group title failed"])

/-- Dispatch to the handler a registry entry names. -/
def runHandler (be : Backend) (st : ClientState) (tag : CmdTag) (args : List (List Char)) :
    ClientState × List ReplEvent :=
  match tag with
  | CmdTag.guide => command_guide st
  | CmdTag.help => command_help st
  | CmdTag.save => command_save st
  | CmdTag.info => command_info st args
  | CmdTag.setname => command_setname be st args
  | CmdTag.setstmsg => command_setstmsg be st args
  | CmdTag.add => command_add be st args
  | CmdTag.del => command_del st args
  | CmdTag.contacts => command_contacts st
  | CmdTag.go => command_go st args
  | CmdTag.history => command_history_run st args
  | CmdTag.accept => _command_accept be st args true
  | CmdTag.deny => _command_accept be st args false
  | CmdTag.invite => command_invite be st args
  | CmdTag.settitle => command_settitle be st args

/-- line[0] of a C string ('\0' when empty). -/
def headChar (l : List Char) : Char :=
  match l with
  | [] => '\x00'
  | c :: _ => c

/-- The per-line body of repl_iterate, applied to a completed line with
its trailing newline already stripped: chat text is rendered, stored in
the active session's history and sent; otherwise the line is echoed and,
when it starts with '/', dispatched through the command registry. -/
def handle_line (be : Backend) (st : ClientState) (ftime : String) (line : List Char) :
    ClientState × List ReplEvent :=
  if st.talkingTo ≠ TALK_TYPE_NULL ∧ headChar line ≠ '/' then
    match get_current_histp st with
    | none => (st, [ReplEvent.warned notTalkingMsg])
    | some (ty, num) =>
      let msg := formatSelfMsg ftime st.selfName line
      if ty = TALK_TYPE_FRIEND then
        let fs := updateFriend st.friends num (fun f => { f with hist := genmsg f.hist msg })
        ({ st with friends := fs },
          [ReplEvent.chatSelf msg, ReplEvent.sentFriendMsg num line])
      else
        let gs := updateGroup st.groups num (fun g => { g with hist := genmsg g.hist msg })
        ({ st with groups := gs },
          [ReplEvent.chatSelf msg, ReplEvent.sentGroupMsg num line])
  else if line = [] then (st, [ReplEvent.echoedCmd line])
  else if headChar line = '/' then
    match findCommand commands (poptok (line.drop 1)).1 with
    | none => (st, [ReplEvent.echoedCmd line, ReplEvent.warned invalidCmdMsg])
    | some cmd =>
      if (gatherTokens (poptok (line.drop 1)).2 cmd.narg).length <
          cmd.narg - (if cmd.narg ≥ COMMAND_ARGS_REST then COMMAND_ARGS_REST else 0) then
        (st, [ReplEvent.echoedCmd line, ReplEvent.warned wrongArityMsg])
      else
        ((runHandler be st cmd.tag (gatherTokens (poptok (line.drop 1)).2 cmd.narg)).1,
          ReplEvent.echoedCmd line ::
            ReplEvent.invokedHandler cmd.name
              (gatherTokens (poptok (line.drop 1)).2 cmd.narg).length
              (gatherTokens (poptok (line.drop 1)).2 cmd.narg) ::
            (runHandler be st cmd.tag (gatherTokens (poptok (line.drop 1)).2 cmd.narg)).2 ++
            [ReplEvent.savedData])
  else (st, [ReplEvent.echoedCmd line, ReplEvent.warned invalidCmdMsg])

/-- C8: tokenizing the completed line "settitle 3 My New Title" against
the settitle registry entry (exactly 2 arguments, final argument takes the
rest of the line) yields exactly the tokens "3" and "My New Title": the
first is split on whitespace and the final token absorbs the remainder
verbatim, embedded spaces included. -/
theorem settitle_rest_capture :
    (poptok ( "settitle 3 My New Title".toList )).1 = "settitle".toList ∧
      (findCommand commands (poptok ( "settitle 3 My New Title".toList )).1).map
          Command.narg = some 2 ∧
      gatherTokens (poptok ( "settitle 3 My New Title".toList )).2 2 =
        [ "3".toList, "My New Title".toList ] := by
  decide

/-- On a line whose first byte is '/', repl_iterate echoes the line and
dispatches through the command registry. -/
lemma handle_line_cmd (be : Backend) (st : ClientState) (ftime : String) (line : List Char)
    (hc : headChar line = '/') :
    handle_line be st ftime line =
      match findCommand commands (poptok (line.drop 1)).1 with
      | none => (st, [ReplEvent.echoedCmd line, ReplEvent.warned invalidCmdMsg])
      | some cmd =>
        if (gatherTokens (poptok (line.drop 1)).2 cmd.narg).length <
            cmd.narg - (if cmd.narg ≥ COMMAND_ARGS_REST then COMMAND_ARGS_REST else 0) then
          (st, [ReplEvent.echoedCmd line, ReplEvent.warned wrongArityMsg])
        else
          ((runHandler be st cmd.tag (gatherTokens (poptok (line.drop 1)).2 cmd.narg)).1,
            ReplEvent.echoedCmd line ::
              ReplEvent.invokedHandler cmd.name
                (gatherTokens (poptok (line.drop 1)).2 cmd.narg).length
                (gatherTokens (poptok (line.drop 1)).2 cmd.narg) ::
              (runHandler be st cmd.tag (gatherTokens (poptok (line.drop 1)).2 cmd.narg)).2 ++
              [ReplEvent.savedData]) := by
  have hne : line ≠ [] := by
    intro h
    rw [h] at hc
    exact absurd hc (by decide)
  unfold handle_line
  rw [if_neg (by simp [hc])]
  rw [if_neg hne, if_pos hc]

/-- Unknown command name: error report, no state change. -/
lemma handle_line_cmd_none (be : Backend) (st : ClientState) (ftime : String)
    (line : List Char) (hc : headChar line = '/')
    (hnone : findCommand commands (poptok (line.drop 1)).1 = none) :
    handle_line be st ftime line =
      (st, [ReplEvent.echoedCmd line, ReplEvent.warned invalidCmdMsg]) := by
  rw [handle_line_cmd be st ftime line hc, hnone]

/-- Too few tokens: wrong-arity report, no state change. -/
lemma handle_line_cmd_arity (be : Backend) (st : ClientState) (ftime : String)
    (line : List Char) (cmd : Command) (hc : headChar line = '/')
    (hsome : findCommand commands (poptok (line.drop 1)).1 = some cmd)
    (harity : (gatherTokens (poptok (line.drop 1)).2 cmd.narg).length <
      cmd.narg - (if cmd.narg ≥ COMMAND_ARGS_REST then COMMAND_ARGS_REST else 0)) :
    handle_line be st ftime line =
      (st, [ReplEvent.echoedCmd line, ReplEvent.warned wrongArityMsg]) := by
  rw [handle_line_cmd be st ftime line hc, hsome]
  exact if_pos harity

/-- Enough tokens: the handler runs on the gathered tokens. -/
lemma handle_line_cmd_run (be : Backend) (st : ClientState) (ftime : String)
    (line : List Char) (cmd : Command) (hc : headChar line = '/')
    (hsome : findCommand commands (poptok (line.drop 1)).1 = some cmd)
    (harity : ¬ ((gatherTokens (poptok (line.drop 1)).2 cmd.narg).length <
      cmd.narg - (if cmd.narg ≥ COMMAND_ARGS_REST then COMMAND_ARGS_REST else 0))) :
    handle_line be st ftime line =
      ((runHandler be st cmd.tag (gatherTokens (poptok (line.drop 1)).2 cmd.narg)).1,
        ReplEvent.echoedCmd line ::
          ReplEvent.invokedHandler cmd.name
            (gatherTokens (poptok (line.drop 1)).2 cmd.narg).length
            (gatherTokens (poptok (line.drop 1)).2 cmd.narg) ::
          (runHandler be st cmd.tag (gatherTokens (poptok (line.drop 1)).2 cmd.narg)).2 ++
          [ReplEvent.savedData]) := by
  rw [handle_line_cmd be st ftime line hc, hsome]
  exact if_neg harity

/-- C5: a command line whose name matches no registry entry reports an
invalid-command error and mutates neither the session directory (friends,
groups) nor the pending request queue; a matching name with fewer parsed
tokens than the declared minimum reports a wrong-arity error, leaves the
state unchanged and never invokes the handler. -/
theorem dispatch_rejects_invalid (be : Backend) (st : ClientState) (ftime : String)
    (line : List Char) (hc : headChar line = '/') :
    (findCommand commands (poptok (line.drop 1)).1 = none →
      (handle_line be st ftime line).1.friends = st.friends ∧
        (handle_line be st ftime line).1.groups = st.groups ∧
        (handle_line be st ftime line).1.requests = st.requests ∧
        (handle_line be st ftime line).2 =
          [ReplEvent.echoedCmd line, ReplEvent.warned invalidCmdMsg]) ∧
    (∀ cmd, findCommand commands (poptok (line.drop 1)).1 = some cmd →
      (gatherTokens (poptok (line.drop 1)).2 cmd.narg).length <
          cmd.narg - (if cmd.narg ≥ COMMAND_ARGS_REST then COMMAND_ARGS_REST else 0) →
      (handle_line be st ftime line).1 = st ∧
        (handle_line be st ftime line).2 =
          [ReplEvent.echoedCmd line, ReplEvent.warned wrongArityMsg] ∧
        (∀ nm nt tks,
          ReplEvent.invokedHandler nm nt tks ∉ (handle_line be st ftime line).2)) := by
  constructor
  · intro hnone
    rw [handle_line_cmd_none be st ftime line hc hnone]
    exact ⟨rfl, rfl, rfl, rfl⟩
  · intro cmd hsome harity
    rw [handle_line_cmd_arity be st ftime line cmd hc hsome harity]
    refine ⟨rfl, rfl, ?_⟩
    intro nm nt tks
    simp

/-- A backend in which every call fails. -/
def be0 : Backend :=
  { friend_add := none, friend_add_norequest := none, conference_new := none,
    conference_join := none, conference_invite_ok := false, set_name_ok := false,
    set_status_ok := false, set_title_ok := false, friend_pubkey := [] }

/-- A fresh client state: empty directory and queue, command mode. -/
def st0 : ClientState :=
  { friends := [], groups := [], requests := [], talkingTo := TALK_TYPE_NULL,
    selfName := "me", selfStatus := "" }

/-- Witness for C5 at the unknown command line "/frobnicate". -/
theorem dispatch_rejects_invalid_witness :
    headChar ( "/frobnicate".toList ) = '/' ∧
      ((findCommand commands (poptok (( "/frobnicate".toList ).drop 1)).1 = none →
        (handle_line be0 st0 "12:00:00" ( "/frobnicate".toList )).1.friends = st0.friends ∧
          (handle_line be0 st0 "12:00:00" ( "/frobnicate".toList )).1.groups = st0.groups ∧
          (handle_line be0 st0 "12:00:00" ( "/frobnicate".toList )).1.requests = st0.requests ∧
          (handle_line be0 st0 "12:00:00" ( "/frobnicate".toList )).2 =
            [ReplEvent.echoedCmd ( "/frobnicate".toList ), ReplEvent.warned invalidCmdMsg]) ∧
      (∀ cmd, findCommand commands (poptok (( "/frobnicate".toList ).drop 1)).1 = some cmd →
        (gatherTokens (poptok (( "/frobnicate".toList ).drop 1)).2 cmd.narg).length <
            cmd.narg - (if cmd.narg ≥ COMMAND_ARGS_REST then COMMAND_ARGS_REST else 0) →
        (handle_line be0 st0 "12:00:00" ( "/frobnicate".toList )).1 = st0 ∧
          (handle_line be0 st0 "12:00:00" ( "/frobnicate".toList )).2 =
            [ReplEvent.echoedCmd ( "/frobnicate".toList ), ReplEvent.warned wrongArityMsg] ∧
          (∀ nm nt tks, ReplEvent.invokedHandler nm nt tks ∉
            (handle_line be0 st0 "12:00:00" ( "/frobnicate".toList )).2))) :=
  ⟨by decide, dispatch_rejects_invalid be0 st0 "12:00:00" ( "/frobnicate".toList ) (by decide)⟩

/-- command_go with a parsed index argument. -/
lemma command_go_parsed (st : ClientState) (a : List Char) (rest : List (List Char))
    (idx : Nat) (h : str2uint a = some idx) :
    command_go st (a :: rest) =
      (if INDEX_TO_TYPE idx = TALK_TYPE_FRIEND then
        match getfriend st.friends (INDEX_TO_NUM idx) with
        | some _ => ({ st with talkingTo := idx }, ([] : List ReplEvent))
        | none => (st, [ReplEvent.warned invalidContactMsg])
      else
        match getgroup st.groups (INDEX_TO_NUM idx) with
        | some _ => ({ st with talkingTo := idx }, ([] : List ReplEvent))
        | none => (st, [ReplEvent.warned invalidContactMsg])) := by
  simp only [command_go]
  rw [h]

/-- C9: the "no active session" sentinel lies inside the encodable
CombinedIndex space: GEN_INDEX(2^31-1, GROUP) = TALK_TYPE_NULL, so group
encodings are distinct from the sentinel exactly for num < 2^31 - 1 (within
the num < 2^31 range where encoding is injective), and a /go command
addressing an existing group with group_num = 2^31 - 1 (index 4294967295)
sets TalkingTo to TALK_TYPE_NULL, the value meaning command mode. -/
theorem group_index_collides_with_null :
    GEN_INDEX (2 ^ 31 - 1) TALK_TYPE_GROUP = TALK_TYPE_NULL ∧
      (∀ num, num < 2 ^ 31 →
        (GEN_INDEX num TALK_TYPE_GROUP ≠ TALK_TYPE_NULL ↔ num < 2 ^ 31 - 1)) ∧
      (∀ (st : ClientState) (a : List Char) (rest : List (List Char)),
        str2uint a = some TALK_TYPE_NULL →
        (getgroup st.groups (INDEX_TO_NUM TALK_TYPE_NULL)).isSome →
        (command_go st (a :: rest)).1.talkingTo = TALK_TYPE_NULL) := by
  refine ⟨by decide, ?_, ?_⟩
  · intro num h
    unfold GEN_INDEX TALK_TYPE_NULL TALK_TYPE_GROUP TALK_TYPE_COUNT UINT32_MOD
    constructor <;> intro h2 <;> omega
  · intro st a rest hparse hsome
    rw [command_go_parsed st a rest TALK_TYPE_NULL hparse]
    rw [if_neg (by decide)]
    obtain ⟨g, hg⟩ := Option.isSome_iff_exists.mp hsome
    rw [hg]

/-- The group at the sentinel-colliding numeric id 2^31 - 1. -/
def boundaryGroup : Group :=
  { group_num := 2 ^ 31 - 1, title := "boundary", peers := [], hist := emptyHist }

/-- A state whose directory holds boundaryGroup. -/
def st9 : ClientState :=
  { friends := [], groups := [boundaryGroup], requests := [], talkingTo := TALK_TYPE_NULL,
    selfName := "me", selfStatus := "" }

/-- Witness for C9: num = 5 for the distinctness part, and /go 4294967295
on st9 for the command part. -/
theorem group_index_collides_with_null_witness :
    (5 < 2 ^ 31 ∧ str2uint ( "4294967295".toList ) = some TALK_TYPE_NULL ∧
        (getgroup st9.groups (INDEX_TO_NUM TALK_TYPE_NULL)).isSome) ∧
      ((GEN_INDEX 5 TALK_TYPE_GROUP ≠ TALK_TYPE_NULL ↔ 5 < 2 ^ 31 - 1) ∧
        (command_go st9 ( "4294967295".toList :: [] )).1.talkingTo = TALK_TYPE_NULL) :=
  ⟨⟨by decide, by decide, by decide⟩,
    ⟨group_index_collides_with_null.2.1 5 (by decide),
      group_index_collides_with_null.2.2 st9 ( "4294967295".toList ) [] (by decide)
        (by decide)⟩⟩

lemma getfriend_eq_none_of_not_mem (fs : List Friend) (n : Nat)
    (h : n ∉ fs.map Friend.friend_num) : getfriend fs n = none := by
  induction fs with
  | nil => rfl
  | cons f rest ih =>
    rw [List.map_cons, List.mem_cons] at h
    push_neg at h
    rw [getfriend, if_neg (fun he => h.1 he.symm)]
    exact ih h.2

lemma getgroup_eq_none_of_not_mem (gs : List Group) (n : Nat)
    (h : n ∉ gs.map Group.group_num) : getgroup gs n = none := by
  induction gs with
  | nil => rfl
  | cons g rest ih =>
    rw [List.map_cons, List.mem_cons] at h
    push_neg at h
    rw [getgroup, if_neg (fun he => h.1 he.symm)]
    exact ih h.2

lemma delfriend_isSome_of_getfriend (fs : List Friend) (n : Nat)
    (h : (getfriend fs n).isSome) : (delfriend fs n).isSome := by
  induction fs with
  | nil => simp [getfriend] at h
  | cons f rest ih =>
    rw [getfriend] at h
    rw [delfriend]
    by_cases hf : f.friend_num = n
    · rw [if_pos hf]
      rfl
    · rw [if_neg hf] at h ⊢
      simpa using ih h

lemma delgroup_isSome_of_getgroup (gs : List Group) (n : Nat)
    (h : (getgroup gs n).isSome) : (delgroup gs n).isSome := by
  induction gs with
  | nil => simp [getgroup] at h
  | cons g rest ih =>
    rw [getgroup] at h
    rw [delgroup]
    by_cases hg : g.group_num = n
    · rw [if_pos hg]
      rfl
    · rw [if_neg hg] at h ⊢
      simpa using ih h

/-- With unique friend_nums, unlinking the friend LIST_FIND reaches leaves
no friend with that number. -/
lemma getfriend_delfriend_none (n : Nat) :
    ∀ (fs fs' : List Friend), (fs.map Friend.friend_num).Nodup →
      delfriend fs n = some fs' → getfriend fs' n = none := by
  intro fs
  induction fs with
  | nil =>
    intro fs' _ h
    exact absurd h (by simp [delfriend])
  | cons f rest ih =>
    intro fs' hnd h
    rw [List.map_cons, List.nodup_cons] at hnd
    rw [delfriend] at h
    by_cases hf : f.friend_num = n
    · rw [if_pos hf] at h
      injection h with h
      subst h
      apply getfriend_eq_none_of_not_mem
      rw [← hf]
      exact hnd.1
    · rw [if_neg hf] at h
      cases hdr : delfriend rest n with
      | none =>
        rw [hdr] at h
        exact absurd h (by simp)
      | some fs'' =>
        rw [hdr, Option.map_some'] at h
        injection h with h
        subst h
        rw [getfriend, if_neg hf]
        exact ih fs'' hnd.2 hdr

/-- With unique group_nums, unlinking the group LIST_FIND reaches leaves
no group with that number. -/
lemma getgroup_delgroup_none (n : Nat) :
    ∀ (gs gs' : List Group), (gs.map Group.group_num).Nodup →
      delgroup gs n = some gs' → getgroup gs' n = none := by
  intro gs
  induction gs with
  | nil =>
    intro gs' _ h
    exact absurd h (by simp [delgroup])
  | cons g rest ih =>
    intro gs' hnd h
    rw [List.map_cons, List.nodup_cons] at hnd
    rw [delgroup] at h
    by_cases hg : g.group_num = n
    · rw [if_pos hg] at h
      injection h with h
      subst h
      apply getgroup_eq_none_of_not_mem
      rw [← hg]
      exact hnd.1
    · rw [if_neg hg] at h
      cases hdr : delgroup rest n with
      | none =>
        rw [hdr] at h
        exact absurd h (by simp)
      | some gs'' =>
        rw [hdr, Option.map_some'] at h
        injection h with h
        subst h
        rw [getgroup, if_neg hg]
        exact ih gs'' hnd.2 hdr

/-- The full /del line for a given argument. -/
def delCmdLine (arg : List Char) : List Char :=
  '/' :: 'd' :: 'e' :: 'l' :: ' ' :: arg

/-- Tokenizing "del <arg>": the command name and the argument remainder. -/
lemma poptok_del (arg : List Char) (hdem : arg.dropWhile isDem = arg) :
    poptok ((delCmdLine arg).drop 1) = (['d', 'e', 'l'], some arg) := by
  show poptok ('d' :: 'e' :: 'l' :: ' ' :: arg) = _
  unfold poptok
  simp [List.dropWhile_cons, List.takeWhile_cons, isDem, hdem]

/-- The registry entry for /del. -/
def delCommand : Command :=
  { name := "del", desc := "<contact_index> - del a contact.", narg := 1, tag := CmdTag.del }

/-- Dispatching the line "/del <arg>" invokes command_del on the single
token <arg>. -/
lemma handle_line_del (be : Backend) (st : ClientState) (ftime : String) (arg : List Char)
    (hdem : arg.dropWhile isDem = arg) :
    handle_line be st ftime (delCmdLine arg) =
      ((command_del st [arg]).1,
        ReplEvent.echoedCmd (delCmdLine arg) ::
          ReplEvent.invokedHandler "del" 1 [arg] ::
          (command_del st [arg]).2 ++ [ReplEvent.savedData]) := by
  have hpop : poptok ((delCmdLine arg).drop 1) = (['d', 'e', 'l'], some arg) :=
    poptok_del arg hdem
  have hfind : findCommand commands (poptok ((delCmdLine arg).drop 1)).1 = some delCommand := by
    rw [hpop]
    show findCommand commands ['d', 'e', 'l'] = some delCommand
    decide
  have harity : ¬ ((gatherTokens (poptok ((delCmdLine arg).drop 1)).2 delCommand.narg).length <
      delCommand.narg -
        (if delCommand.narg ≥ COMMAND_ARGS_REST then COMMAND_ARGS_REST else 0)) := by
    rw [hpop]
    show ¬ ((gatherTokens (some arg) 1).length < _)
    simp [gatherTokens, gatherAux, COMMAND_ARGS_REST, delCommand]
  rw [handle_line_cmd_run be st ftime (delCmdLine arg) delCommand rfl hfind harity]
  rw [hpop]
  rfl

/-- A non-command line while TalkingTo points to no existing session: the
"not talking" error, nothing stored, nothing sent, state unchanged. -/
lemma handle_line_chat_none (be : Backend) (st : ClientState) (ftime : String)
    (line : List Char) (h1 : st.talkingTo ≠ TALK_TYPE_NULL) (h2 : headChar line ≠ '/')
    (h3 : get_current_histp st = none) :
    handle_line be st ftime line = (st, [ReplEvent.warned notTalkingMsg]) := by
  unfold handle_line
  rw [if_pos ⟨h1, h2⟩, h3]

/-- command_del with a parsed index argument. -/
lemma command_del_parsed (st : ClientState) (a : List Char) (rest : List (List Char))
    (idx : Nat) (h : str2uint a = some idx) :
    command_del st (a :: rest) =
      (if INDEX_TO_TYPE idx = TALK_TYPE_FRIEND then
        match delfriend st.friends (INDEX_TO_NUM idx) with
        | some fs => ({ st with friends := fs }, ([] : List ReplEvent))
        | none => (st, [ReplEvent.warned invalidContactMsg])
      else
        match delgroup st.groups (INDEX_TO_NUM idx) with
        | some gs => ({ st with groups := gs }, ([] : List ReplEvent))
        | none => (st, [ReplEvent.warned invalidContactMsg])) := by
  simp only [command_del]
  rw [h]

/-- Deleting the session TalkingTo points to: TalkingTo keeps the now
unmapped index and get_current_histp becomes NULL. -/
lemma command_del_active (st : ClientState) (arg : List Char)
    (hnn : st.talkingTo ≠ TALK_TYPE_NULL)
    (harg : str2uint arg = some st.talkingTo)
    (hndF : (st.friends.map Friend.friend_num).Nodup)
    (hndG : (st.groups.map Group.group_num).Nodup)
    (hex : (get_current_histp st).isSome) :
    (command_del st [arg]).1.talkingTo = st.talkingTo ∧
      get_current_histp (command_del st [arg]).1 = none := by
  rw [command_del_parsed st arg [] st.talkingTo harg]
  unfold get_current_histp at hex
  rw [if_neg hnn] at hex
  by_cases hty : INDEX_TO_TYPE st.talkingTo = TALK_TYPE_FRIEND
  · rw [if_pos hty] at hex ⊢
    cases hgf : getfriend st.friends (INDEX_TO_NUM st.talkingTo) with
    | none =>
      rw [hgf] at hex
      simp at hex
    | some f =>
      have hds : (delfriend st.friends (INDEX_TO_NUM st.talkingTo)).isSome := by
        apply delfriend_isSome_of_getfriend
        rw [hgf]
        rfl
      obtain ⟨fs', hdel⟩ := Option.isSome_iff_exists.mp hds
      rw [hdel]
      refine ⟨rfl, ?_⟩
      have hnone : getfriend fs' (INDEX_TO_NUM st.talkingTo) = none :=
        getfriend_delfriend_none (INDEX_TO_NUM st.talkingTo) st.friends fs' hndF hdel
      unfold get_current_histp
      rw [show ({ st with friends := fs' } : ClientState).talkingTo = st.talkingTo from rfl]
      rw [show ({ st with friends := fs' } : ClientState).friends = fs' from rfl]
      rw [if_neg hnn, if_pos hty, hnone]
  · rw [if_neg hty] at hex ⊢
    cases hgg : getgroup st.groups (INDEX_TO_NUM st.talkingTo) with
    | none =>
      rw [hgg] at hex
      simp at hex
    | some g =>
      have hds : (delgroup st.groups (INDEX_TO_NUM st.talkingTo)).isSome := by
        apply delgroup_isSome_of_getgroup
        rw [hgg]
        rfl
      obtain ⟨gs', hdel⟩ := Option.isSome_iff_exists.mp hds
      rw [hdel]
      refine ⟨rfl, ?_⟩
      have hnone : getgroup gs' (INDEX_TO_NUM st.talkingTo) = none :=
        getgroup_delgroup_none (INDEX_TO_NUM st.talkingTo) st.groups gs' hndG hdel
      unfold get_current_histp
      rw [show ({ st with groups := gs' } : ClientState).talkingTo = st.talkingTo from rfl]
      rw [show ({ st with groups := gs' } : ClientState).groups = gs' from rfl]
      rw [if_neg hnn, if_neg hty, hnone]

/-- C10: deleting the currently active session via /del does not reset the
active-session reference: after /del <TalkingTo> removes the friend or
group whose CombinedIndex equals TalkingTo, TalkingTo still holds that now
unmapped index (not the sentinel), and every subsequent non-command input
line reports the "not talking to someone" error, stores no chat-history
entry and sends no message, leaving the state unchanged (so the condition
persists until a /go changes TalkingTo). -/
theorem del_keeps_stale_talkingto (be : Backend) (st : ClientState) (ftime : String)
    (arg : List Char)
    (hnn : st.talkingTo ≠ TALK_TYPE_NULL)
    (harg : str2uint arg = some st.talkingTo)
    (hdem : arg.dropWhile isDem = arg)
    (hndF : (st.friends.map Friend.friend_num).Nodup)
    (hndG : (st.groups.map Group.group_num).Nodup)
    (hex : (get_current_histp st).isSome) :
    (handle_line be st ftime (delCmdLine arg)).1.talkingTo = st.talkingTo ∧
      get_current_histp (handle_line be st ftime (delCmdLine arg)).1 = none ∧
      (∀ line2, headChar line2 ≠ '/' →
        handle_line be (handle_line be st ftime (delCmdLine arg)).1 ftime line2 =
          ((handle_line be st ftime (delCmdLine arg)).1,
            [ReplEvent.warned notTalkingMsg])) := by
  have hline := handle_line_del be st ftime arg hdem
  have hactive := command_del_active st arg hnn harg hndF hndG hex
  refine ⟨by rw [hline]; exact hactive.1, by rw [hline]; exact hactive.2, ?_⟩
  intro line2 h2
  rw [hline]
  exact handle_line_chat_none be (command_del st [arg]).1 ftime line2
    (by rw [hactive.1]; exact hnn) h2 hactive.2

/-- The friend session used to witness C10 (CombinedIndex 10). -/
def fr5 : Friend :=
  { friend_num := 5, name := "alice", status_message := "", pubkey := [],
    connection := 0, hist := emptyHist }

/-- A state talking to fr5 (TalkingTo = GEN_INDEX(5, FRIEND) = 10). -/
def st10 : ClientState :=
  { friends := [fr5], groups := [], requests := [], talkingTo := 10,
    selfName := "me", selfStatus := "" }

/-- Witness for C10: /del 10 while talking to contact index 10. -/
theorem del_keeps_stale_talkingto_witness :
    (st10.talkingTo ≠ TALK_TYPE_NULL ∧ str2uint ( "10".toList ) = some st10.talkingTo ∧
        ( "10".toList ).dropWhile isDem = "10".toList ∧
        (st10.friends.map Friend.friend_num).Nodup ∧
        (st10.groups.map Group.group_num).Nodup ∧
        (get_current_histp st10).isSome) ∧
      ((handle_line be0 st10 "12:00:00" (delCmdLine ( "10".toList ))).1.talkingTo =
          st10.talkingTo ∧
        get_current_histp (handle_line be0 st10 "12:00:00" (delCmdLine ( "10".toList ))).1 =
          none ∧
        (∀ line2, headChar line2 ≠ '/' →
          handle_line be0 (handle_line be0 st10 "12:00:00" (delCmdLine ( "10".toList ))).1
              "12:00:00" line2 =
            ((handle_line be0 st10 "12:00:00" (delCmdLine ( "10".toList ))).1,
              [ReplEvent.warned notTalkingMsg]))) :=
  ⟨⟨by decide, by decide, by decide, by decide, by decide, by decide⟩,
    del_keeps_stale_talkingto be0 st10 "12:00:00" ( "10".toList ) (by decide) (by decide)
      (by decide) (by decide) (by decide) (by decide)⟩

end Minitox
